import Mathlib

/-!
# Verification of the one-time verification-code service (`src/app.py`)

Shallow embedding of the Flask service in `src/app.py`.  The in-memory
backend `MemoryStore` keeps a Python dict mapping a code string to a record
`{"code", "expires_at", "metadata", "used"}`; every operation holds a single
lock for its whole body, so each store call is one atomic step.  We model:

* timestamps (`datetime` values) as `Int` (comparison order is all the code
  uses, plus `now + timedelta(seconds=ttl)` which becomes `now + ttl`);
* the metadata JSON object as an association list `List (String × String)`
  (opaque to the code: it is stored and returned verbatim);
* the dict as an association list with unique keys, in insertion order:
  dict assignment replaces the value in place when the key is present and
  appends otherwise (`setEntry`), exactly Python's dict-update semantics
  under the unique-keys invariant that a dict maintains by construction;
* each effectful read of the clock (`datetime.now(timezone.utc)`) as an
  explicit `now : Int` argument;
* the HTTP layer's request data (headers, JSON body, query args) as explicit
  `Option`-valued fields, with Python truthiness of strings/ints spelled out
  (`orElseStr`, `pickTtl` model the `x or y or z` chains of the source).

Every definition is translated from `src/app.py`; functions return their
Python return value paired with the post-state of the store.
-/

set_option autoImplicit false

/-- Opaque caller-supplied JSON object, stored and echoed verbatim. -/
abbrev Metadata := List (String × String)

/-- One record of `MemoryStore._codes` (`src/app.py` lines 30-35):
the dict `{"code": code, "expires_at": expires_at, "metadata": metadata or {},
"used": False}`. -/
structure CodeRecord where
  code : String
  expires_at : Int
  metadata : Metadata
  used : Bool
deriving DecidableEq, Repr

/-- The dict `MemoryStore._codes`, as an insertion-ordered association list
with unique keys. -/
abbrev Store := List (String × CodeRecord)

/-- First-match lookup, `self._codes.get(code)`. -/
def lookupCode : Store → String → Option CodeRecord
  | [], _ => none
  | (k, e) :: t, c => if k = c then some e else lookupCode t c

/-- Python dict assignment `self._codes[code] = r` (and the in-place mutation
`entry["used"] = True` of a stored record): replace the value at the key's
existing position, or append the new pair at the end. -/
def setEntry : Store → String → CodeRecord → Store
  | [], c, r => [(c, r)]
  | (k, e) :: t, c, r => if k = c then (c, r) :: t else (k, e) :: setEntry t c r

/-- Store-level error classification returned by `check_and_consume`
(the strings `"not_found"`, `"expired"`, `"used"`). -/
inductive ErrKind where
  | not_found
  | expired
  | used
deriving DecidableEq, Repr

namespace MemoryStore

/-- `MemoryStore.add` (`src/app.py` lines 27-36): computes
`expires_at = now + ttl_seconds`, overwrites the record under `code` with
`used = False` and `metadata or {}`, and returns the expiry.
Result: (returned expiry, new store). -/
def add (s : Store) (now : Int) (code : String) (ttl_seconds : Int)
    (metadata : Option Metadata) : Int × Store :=
  let expires_at := now + ttl_seconds
  (expires_at,
    setEntry s code
      { code := code, expires_at := expires_at, metadata := metadata.getD [],
        used := false })

/-- `MemoryStore.check_and_consume` (`src/app.py` lines 38-48): looks up the
code; `not_found` when absent, `expired` when `entry["expires_at"] < now`,
`used` when already used and reuse is disallowed; otherwise sets
`entry["used"] = True` in place and returns the (mutated) entry.
Result: (the Python pair `(entry, err)`, new store). -/
def check_and_consume (s : Store) (now : Int) (code : String)
    (allow_reuse : Bool) : (Option CodeRecord × Option ErrKind) × Store :=
  match lookupCode s code with
  | none => ((none, some .not_found), s)
  | some entry =>
    if entry.expires_at < now then
      ((none, some .expired), s)
    else if entry.used && !allow_reuse then
      ((none, some .used), s)
    else
      let entry2 := { entry with used := true }
      ((some entry2, none), setEntry s code entry2)

/-- The purge predicate of `src/app.py` line 53:
`e["expires_at"] < now or e["used"]`. -/
def isDead (now : Int) (e : CodeRecord) : Bool :=
  decide (e.expires_at < now) || e.used

/-- `MemoryStore.purge` (`src/app.py` lines 50-56): collects the codes of all
dead records, deletes each, and returns how many were collected.  Under the
dict's unique-keys invariant, deleting the collected codes is filtering the
collection by the negated predicate.  Result: (returned count, new store). -/
def purge (s : Store) (now : Int) : Nat × Store :=
  let to_del := (s.filter fun p => isDead now p.2).map Prod.fst
  (to_del.length, s.filter fun p => ! isDead now p.2)

end MemoryStore

/-! ## HTTP adapter (`src/app.py` lines 133-196)

`request` data is passed explicitly: a header value, JSON-body fields and
query args are `Option`s (`none` = absent).  Python truthiness drives the
`x or y or z` chains: for strings only `""` is falsy, for ints only `0`. -/

/-- `require_api_key` (`src/app.py` lines 133-137): reads the `X-API-KEY`
header with default `""`; rejects (`some ()`, the 401 response) when the
configured key is empty (falsy) or the provided key differs. -/
def require_api_key (admin_api_key : String) (header_key : Option String) :
    Option Unit :=
  let key := header_key.getD ""
  if admin_api_key = "" ∨ key ≠ admin_api_key then some () else none

/-- Python `str.strip()` with no argument: remove leading and trailing
whitespace. -/
def pyStrip (s : String) : String :=
  ⟨((s.data.dropWhile Char.isWhitespace).reverse.dropWhile
      Char.isWhitespace).reverse⟩

/-- Value of a non-empty run of decimal digits; `none` on a non-digit or an
empty run. -/
def digitsVal (l : List Char) : Option Nat :=
  match l with
  | [] => none
  | _ =>
    l.foldl
      (fun acc c =>
        match acc with
        | none => none
        | some a => if c.isDigit then some (a * 10 + (c.toNat - 48)) else none)
      (some 0)

/-- Python `int(str)`: strips whitespace, then an optional sign and decimal
digits; `none` models the `ValueError` raised on anything else. -/
def pyParseInt (s : String) : Option Int :=
  match (pyStrip s).data with
  | '-' :: ds => (digitsVal ds).map fun n => -(n : Int)
  | '+' :: ds => (digitsVal ds).map fun n => (n : Int)
  | ds => (digitsVal ds).map fun n => (n : Int)

/-- Python `x or y` for an optional string `x` (absent or `""` is falsy). -/
def orElseStr (x : Option String) (y : String) : String :=
  match x with
  | some s => if s = "" then y else s
  | none => y

/-- The TTL selection of `src/app.py` lines 161-163:
`ttl = payload.get("ttl_seconds") or request.args.get("ttl_seconds") or
DEFAULT_TTL` followed by `ttl = int(ttl)`.  The body field is a JSON number
(falsy exactly when `0`); the query arg is a string (falsy exactly when
`""`) that `int` parses, `none` meaning the parse raised (`invalid_ttl`). -/
def pickTtl (body_ttl : Option Int) (args_ttl : Option String)
    (default_ttl : Int) : Option Int :=
  let fromArgs : Option Int :=
    match args_ttl with
    | some a => if a = "" then some default_ttl else pyParseInt a
    | none => some default_ttl
  match body_ttl with
  | some t => if t = 0 then fromArgs else some t
  | none => fromArgs

/-- The request data reaching `add_code`: the `X-API-KEY` header, the `code`
field of the JSON body and of the query string, the `ttl_seconds` field of
body and query string, and the body's `metadata`. -/
structure AddReq where
  header_key : Option String
  body_code : Option String
  args_code : Option String
  body_ttl : Option Int
  args_ttl : Option String
  body_metadata : Option Metadata
deriving Repr

/-- Responses of the `/addcode` route. -/
inductive AddResult where
  | unauthorized
  | missing_code
  | invalid_ttl
  | added (code : String) (expires_at : Int)
deriving DecidableEq, Repr

/-- `add_code` (`src/app.py` lines 150-171): auth gate, then
`code = (payload.get("code") or request.args.get("code") or "").strip()`
rejecting empty, then the TTL chain with bounds `1..86400`, then
`store.add`.  Result: (HTTP response, new store). -/
def add_code (admin_api_key : String) (default_ttl : Int) (s : Store)
    (now : Int) (req : AddReq) : AddResult × Store :=
  match require_api_key admin_api_key req.header_key with
  | some _ => (.unauthorized, s)
  | none =>
    let code := pyStrip (orElseStr req.body_code (orElseStr req.args_code ""))
    if code = "" then (.missing_code, s)
    else
      match pickTtl req.body_ttl req.args_ttl default_ttl with
      | none => (.invalid_ttl, s)
      | some ttl =>
        if ttl ≤ 0 ∨ ttl > 86400 then (.invalid_ttl, s)
        else
          let (expires_at, s2) :=
            MemoryStore.add s now code ttl req.body_metadata
          (.added code expires_at, s2)

/-- The request data reaching `check_code`: the HTTP method and the `code`
field of the JSON body (POST) or query string (GET). -/
structure CheckReq where
  is_post : Bool
  body_code : Option String
  args_code : Option String
deriving Repr

/-- Responses of the `/checkcode` route. -/
inductive CheckResult where
  | missing_code
  | invalid_or_expired
  | ok (code : String) (metadata : Metadata)
deriving DecidableEq, Repr

/-- `check_code` (`src/app.py` lines 173-188): POST takes the code from the
JSON body, GET from the query string, both via `(x or "").strip()`; empty is
rejected; then `store.check_and_consume` with the configured reuse flag, a
`some` error becoming the collapsed `invalid_or_expired` response.  The
source indexes `entry["code"]` only on the no-error path, where the store
always returned an entry; the `(none, none)` branch is unreachable.
Result: (HTTP response, new store). -/
def check_code (allow_reuse : Bool) (s : Store) (now : Int) (req : CheckReq) :
    CheckResult × Store :=
  let code :=
    pyStrip (if req.is_post then orElseStr req.body_code ""
             else orElseStr req.args_code "")
  if code = "" then (.missing_code, s)
  else
    match MemoryStore.check_and_consume s now code allow_reuse with
    | ((_, some _), s2) => (.invalid_or_expired, s2)
    | ((some entry, none), s2) => (.ok entry.code entry.metadata, s2)
    | ((none, none), s2) => (.invalid_or_expired, s2)

/-- Responses of the `/purge` route. -/
inductive PurgeResult where
  | unauthorized
  | purged (n : Nat)
deriving DecidableEq, Repr

/-- The `/purge` route (`src/app.py` lines 190-196): auth gate, then
`store.purge()`.  Result: (HTTP response, new store). -/
def purge (admin_api_key : String) (s : Store) (now : Int)
    (header_key : Option String) : PurgeResult × Store :=
  match require_api_key admin_api_key header_key with
  | some _ => (.unauthorized, s)
  | none =>
    let (n, s2) := MemoryStore.purge s now
    (.purged n, s2)

/-- `n` redemption attempts for the same code, serialized by the store's
lock (`with self._lock` covers the whole body of `check_and_consume`, so
concurrent calls execute as some sequence of complete calls; identical
calls make every serialization order this one).  Returns the list of
per-call success flags (`entry is not None`) and the final store. -/
def runConsumeN : Nat → Store → Int → String → Bool → List Bool × Store
  | 0, s, _, _, _ => ([], s)
  | Nat.succ n, s, now, c, ar =>
    match MemoryStore.check_and_consume s now c ar with
    | ((entry, _), s2) =>
      let (rest, s3) := runConsumeN n s2 now c ar
      (entry.isSome :: rest, s3)

/-! ## Basic store lemmas -/

@[simp]
theorem lookupCode_setEntry_self (s : Store) (c : String) (r : CodeRecord) :
    lookupCode (setEntry s c r) c = some r := by
  induction s with
  | nil => simp [setEntry, lookupCode]
  | cons hd t ih =>
    obtain ⟨k, e⟩ := hd
    by_cases hk : k = c
    · simp [setEntry, hk, lookupCode]
    · simp [setEntry, hk, lookupCode, ih]

theorem lookupCode_setEntry_ne (s : Store) (c k : String) (r : CodeRecord)
    (hk : k ≠ c) : lookupCode (setEntry s c r) k = lookupCode s k := by
  have hck : c ≠ k := fun h => hk h.symm
  induction s with
  | nil => simp [setEntry, lookupCode, hck]
  | cons hd t ih =>
    obtain ⟨k', e⟩ := hd
    by_cases hk' : k' = c
    · subst hk'
      simp [setEntry, lookupCode, hck]
    · simp [setEntry, hk', lookupCode, ih]

theorem length_filter_add_length_filter_not {α : Type} (l : List α)
    (p : α → Bool) :
    (l.filter p).length + (l.filter fun a => !p a).length = l.length := by
  induction l with
  | nil => simp
  | cons h t ih => by_cases hp : p h <;> simp [hp, ih] <;> omega

theorem filter_not_filter_nil {α : Type} (l : List α) (p : α → Bool) :
    (l.filter fun a => !p a).filter p = [] := by
  induction l with
  | nil => rfl
  | cons h t ih => by_cases hp : p h <;> simp [hp, ih]

theorem filter_not_idem {α : Type} (l : List α) (p : α → Bool) :
    ((l.filter fun a => !p a).filter fun a => !p a)
      = l.filter fun a => !p a := by
  induction l with
  | nil => rfl
  | cons h t ih => by_cases hp : p h <;> simp [hp, ih]

/-! ## Claim theorems -/

/-- Claim C1: a code `c` added with a valid TTL and arbitrary metadata `m`
can be consumed immediately: the first `check_and_consume` succeeds and
returns a record whose metadata is exactly `m`; an immediately following
second `check_and_consume` with reuse disallowed fails (classified `used`)
instead of succeeding. -/
theorem add_then_immediate_consume_twice (s : Store) (now : Int) (c : String)
    (ttl : Int) (m : Metadata) (httl : 1 ≤ ttl) :
    ∃ rec s1,
      MemoryStore.check_and_consume (MemoryStore.add s now c ttl (some m)).2
        now c false = ((some rec, none), s1) ∧
      rec.metadata = m ∧
      (MemoryStore.check_and_consume s1 now c false).1
        = (none, some ErrKind.used) := by
  have hexp : ¬ (now + ttl < now) := by omega
  refine ⟨⟨c, now + ttl, m, true⟩,
    setEntry (setEntry s c ⟨c, now + ttl, m, false⟩) c ⟨c, now + ttl, m, true⟩,
    ?_, rfl, ?_⟩
  · simp [MemoryStore.add, MemoryStore.check_and_consume, hexp]
  · simp [MemoryStore.check_and_consume, hexp]

/-- Witness for C1 at `s = []`, `now = 0`, `c = "ABC123"`, `ttl = 60`,
`m = [("user", "alice")]`. -/
theorem add_then_immediate_consume_twice_demo :
    (1 : Int) ≤ 60 ∧
    ∃ rec s1,
      MemoryStore.check_and_consume
        (MemoryStore.add [] 0 "ABC123" 60 (some [("user", "alice")])).2
        0 "ABC123" false = ((some rec, none), s1) ∧
      rec.metadata = [("user", "alice")] ∧
      (MemoryStore.check_and_consume s1 0 "ABC123" false).1
        = (none, some ErrKind.used) :=
  ⟨by decide,
   add_then_immediate_consume_twice [] 0 "ABC123" 60 [("user", "alice")]
     (by decide)⟩

/-- Claim C2: `check_and_consume` fails with the `expired` classification
exactly when `now` is strictly greater than the record's expiry (the test is
`expires_at < now`, so a record expiring exactly at `now` is still valid);
in particular a code added at `t0` with TTL `ttl` fails as `expired` at any
time strictly after `t0 + ttl`, even if never consumed. -/
theorem expired_classification (s : Store) (now : Int) (c : String)
    (ar : Bool) :
    (∀ e : CodeRecord, lookupCode s c = some e →
      ((MemoryStore.check_and_consume s now c ar).1.2 = some ErrKind.expired ↔
        e.expires_at < now)) ∧
    (∀ (t0 ttl : Int) (m : Option Metadata), t0 + ttl < now →
      (MemoryStore.check_and_consume (MemoryStore.add s t0 c ttl m).2 now c
          ar).1.2 = some ErrKind.expired) := by
  constructor
  · intro e he
    by_cases hx : e.expires_at < now
    · simp [MemoryStore.check_and_consume, he, hx]
    · by_cases hu : (e.used && !ar) = true
      · simp [MemoryStore.check_and_consume, he, hx, hu]
      · simp [MemoryStore.check_and_consume, he, hx, hu]
  · intro t0 ttl m h
    simp [MemoryStore.add, MemoryStore.check_and_consume, h]

/-- Witness for C2 at a store holding `"XYZ"` expiring at time 1, checked at
time 2, and at an add with TTL 1 at time 0 checked at time 2. -/
theorem expired_classification_demo :
    lookupCode [("XYZ", ⟨"XYZ", 1, [], false⟩)] "XYZ"
      = some ⟨"XYZ", 1, [], false⟩ ∧
    ((MemoryStore.check_and_consume [("XYZ", ⟨"XYZ", 1, [], false⟩)] 2 "XYZ"
        false).1.2 = some ErrKind.expired ↔
      (⟨"XYZ", 1, [], false⟩ : CodeRecord).expires_at < 2) ∧
    (0 : Int) + 1 < 2 ∧
    (MemoryStore.check_and_consume (MemoryStore.add [] 0 "XYZ" 1 none).2 2
        "XYZ" false).1.2 = some ErrKind.expired :=
  ⟨rfl,
   (expired_classification [("XYZ", ⟨"XYZ", 1, [], false⟩)] 2 "XYZ" false).1
     ⟨"XYZ", 1, [], false⟩ rfl,
   by decide,
   (expired_classification [] 2 "XYZ" false).2 0 1 none (by decide)⟩

/-- Claim C4: a (second) `add` of code `c` overwrites whatever record was
there — whatever the prior store, including one where `c` had been consumed
— with a fresh record: `used = false`, the new metadata and the freshly
computed expiry; a subsequent consume therefore returns the new metadata. -/
theorem add_overwrites (s : Store) (now : Int) (c : String) (ttl : Int)
    (m : Option Metadata) :
    lookupCode (MemoryStore.add s now c ttl m).2 c
      = some { code := c, expires_at := now + ttl, metadata := m.getD [],
               used := false } ∧
    (1 ≤ ttl →
      ∃ rec s2,
        MemoryStore.check_and_consume (MemoryStore.add s now c ttl m).2 now c
          false = ((some rec, none), s2) ∧ rec.metadata = m.getD []) := by
  constructor
  · simp [MemoryStore.add]
  · intro httl
    have hexp : ¬ (now + ttl < now) := by omega
    refine ⟨⟨c, now + ttl, m.getD [], true⟩,
      setEntry (setEntry s c ⟨c, now + ttl, m.getD [], false⟩) c
        ⟨c, now + ttl, m.getD [], true⟩, ?_, rfl⟩
    simp [MemoryStore.add, MemoryStore.check_and_consume, hexp]

/-- Witness for C4: `"c"` is added (and consumed) with metadata
`[("v", "1")]`, then added again with `[("v", "2")]`; the stored record is
the fresh one and the subsequent consume returns the second metadata. -/
theorem add_overwrites_demo :
    lookupCode
      (MemoryStore.add [("c", ⟨"c", 50, [("v", "1")], true⟩)] 10 "c" 60
        (some [("v", "2")])).2 "c"
      = some { code := "c", expires_at := 70, metadata := [("v", "2")],
               used := false } ∧
    ∃ rec s2,
      MemoryStore.check_and_consume
        (MemoryStore.add [("c", ⟨"c", 50, [("v", "1")], true⟩)] 10 "c" 60
          (some [("v", "2")])).2 10 "c" false = ((some rec, none), s2) ∧
      rec.metadata = [("v", "2")] :=
  ⟨(add_overwrites [("c", ⟨"c", 50, [("v", "1")], true⟩)] 10 "c" 60
      (some [("v", "2")])).1,
   (add_overwrites [("c", ⟨"c", 50, [("v", "1")], true⟩)] 10 "c" 60
      (some [("v", "2")])).2 (by decide)⟩

/-- Claim C5: `purge` keeps exactly the records that are neither expired
(`expires_at < now`) nor used — so no live record, including one expiring
exactly at `now`, is removed and every dead one is — and the returned count
plus the number of surviving records equals the original number of
records. -/
theorem purge_removes_exactly_dead (s : Store) (now : Int) :
    (∀ (k : String) (r : CodeRecord),
      (k, r) ∈ (MemoryStore.purge s now).2 ↔
        ((k, r) ∈ s ∧ ¬ (r.expires_at < now ∨ r.used = true))) ∧
    (MemoryStore.purge s now).1 + (MemoryStore.purge s now).2.length
      = s.length := by
  constructor
  · intro k r
    simp [MemoryStore.purge, List.mem_filter, MemoryStore.isDead, not_or]
  · simpa [MemoryStore.purge] using
      length_filter_add_length_filter_not s fun p => MemoryStore.isDead now p.2

/-- Claim C6: `purge` is idempotent: with no intervening operation and the
same current time, a second `purge` removes 0 records and leaves the store
exactly as the first left it. -/
theorem purge_idempotent (s : Store) (now : Int) :
    MemoryStore.purge (MemoryStore.purge s now).2 now
      = (0, (MemoryStore.purge s now).2) := by
  simp [MemoryStore.purge, filter_not_filter_nil, filter_not_idem]

theorem check_used_noop (s : Store) (now : Int) (c : String) (e : CodeRecord)
    (he : lookupCode s c = some e) (hu : e.used = true)
    (hx : ¬ e.expires_at < now) :
    MemoryStore.check_and_consume s now c false = ((none, some .used), s) := by
  simp [MemoryStore.check_and_consume, he, hx, hu]

theorem runConsumeN_all_fail (n : Nat) (s : Store) (now : Int) (c : String)
    (e : CodeRecord) (he : lookupCode s c = some e) (hu : e.used = true)
    (hx : ¬ e.expires_at < now) :
    runConsumeN n s now c false = (List.replicate n false, s) := by
  induction n with
  | zero => simp [runConsumeN]
  | succ n ih =>
    simp [runConsumeN, check_used_noop s now c e he hu hx, ih,
      List.replicate_succ]

theorem count_true_replicate_false (m : Nat) :
    (List.replicate m false).count true = 0 := by
  induction m with
  | zero => rfl
  | succ m ih => simp [List.replicate_succ, List.count_cons, ih]

/-- Claim C3: the whole body of `check_and_consume` runs under the store's
lock, so concurrent calls execute as some serialization of complete calls;
for `n` identical redemption attempts of one unused, unexpired code with
reuse disallowed every serialization is the sequential run `runConsumeN`,
and exactly one of the `n` attempts succeeds. -/
theorem consume_exactly_one_succeeds (n : Nat) (s : Store) (now : Int)
    (c : String) (e : CodeRecord) (hn : 1 ≤ n)
    (he : lookupCode s c = some e) (hu : e.used = false)
    (hx : ¬ e.expires_at < now) :
    (runConsumeN n s now c false).1.count true = 1 ∧
    (runConsumeN n s now c false).1.length = n := by
  obtain ⟨m, rfl⟩ : ∃ m, n = m + 1 := ⟨n - 1, by omega⟩
  have hstep : MemoryStore.check_and_consume s now c false
      = ((some { e with used := true }, none),
         setEntry s c { e with used := true }) := by
    simp [MemoryStore.check_and_consume, he, hx, hu]
  have hrest := runConsumeN_all_fail m (setEntry s c { e with used := true })
      now c { e with used := true } (by simp) rfl (by simpa using hx)
  constructor <;>
    simp [runConsumeN, hstep, hrest, List.count_cons,
      count_true_replicate_false]

/-- Witness for C3: five serialized attempts on a live code — exactly one
success among the five. -/
theorem consume_exactly_one_succeeds_demo :
    1 ≤ 5 ∧
    lookupCode [("c", ⟨"c", 10, [], false⟩)] "c" = some ⟨"c", 10, [], false⟩ ∧
    (runConsumeN 5 [("c", ⟨"c", 10, [], false⟩)] 4 "c" false).1.count true
      = 1 ∧
    (runConsumeN 5 [("c", ⟨"c", 10, [], false⟩)] 4 "c" false).1.length = 5 :=
  ⟨by decide, rfl,
   (consume_exactly_one_succeeds 5 [("c", ⟨"c", 10, [], false⟩)] 4 "c"
      ⟨"c", 10, [], false⟩ (by decide) rfl rfl (by decide)).1,
   (consume_exactly_one_succeeds 5 [("c", ⟨"c", 10, [], false⟩)] 4 "c"
      ⟨"c", 10, [], false⟩ (by decide) rfl rfl (by decide)).2⟩

/-- Claim C9: a failed `check_and_consume` (any of the three
classifications) returns the store unchanged; a successful one returns the
looked-up record with only its `used` flag set — expiry and metadata
unchanged — stores exactly that record back under its code, and leaves the
record under every other key untouched. -/
theorem check_and_consume_frame (s : Store) (now : Int) (c : String)
    (ar : Bool) :
    (∀ k : ErrKind, (MemoryStore.check_and_consume s now c ar).1.2 = some k →
      (MemoryStore.check_and_consume s now c ar).2 = s) ∧
    (∀ (e rec : CodeRecord), lookupCode s c = some e →
      (MemoryStore.check_and_consume s now c ar).1.1 = some rec →
      rec = { e with used := true } ∧
      lookupCode (MemoryStore.check_and_consume s now c ar).2 c
        = some { e with used := true } ∧
      ∀ k2 : String, k2 ≠ c →
        lookupCode (MemoryStore.check_and_consume s now c ar).2 k2
          = lookupCode s k2) := by
  rcases hl : lookupCode s c with _ | e0
  · constructor
    · intro k _
      simp [MemoryStore.check_and_consume, hl]
    · intro e rec he
      simp at he
  · by_cases hx : e0.expires_at < now
    · constructor
      · intro k _
        simp [MemoryStore.check_and_consume, hl, hx]
      · intro e rec he hrec
        rw [MemoryStore.check_and_consume, hl] at hrec
        simp [hx] at hrec
    · by_cases hu : (e0.used && !ar) = true
      · constructor
        · intro k _
          simp [MemoryStore.check_and_consume, hl, hx, hu]
        · intro e rec he hrec
          rw [MemoryStore.check_and_consume, hl] at hrec
          simp [hx, hu] at hrec
      · constructor
        · intro k hk
          rw [MemoryStore.check_and_consume, hl] at hk
          simp [hx, hu] at hk
        · intro e rec he hrec
          have he0 : e0 = e := by simpa using he
          subst he0
          rw [MemoryStore.check_and_consume, hl] at hrec
          simp only [hx, if_neg, hu] at hrec
          refine ⟨?_, ?_, ?_⟩
          · simpa [hx, hu] using hrec.symm
          · simp [MemoryStore.check_and_consume, hl, hx, hu]
          · intro k2 hk2
            simp [MemoryStore.check_and_consume, hl, hx, hu,
              lookupCode_setEntry_ne s c k2 _ hk2]

/-- Witness for C9: a not-found failure leaves the store unchanged, and a
successful consume of `"a"` leaves the record under `"b"` untouched. -/
theorem check_and_consume_frame_demo :
    (MemoryStore.check_and_consume [("b", ⟨"b", 9, [], false⟩)] 0 "z"
        false).2 = [("b", ⟨"b", 9, [], false⟩)] ∧
    lookupCode
      (MemoryStore.check_and_consume
        [("a", ⟨"a", 10, [], false⟩), ("b", ⟨"b", 9, [], false⟩)] 5 "a"
        false).2 "b"
      = lookupCode
          [("a", ⟨"a", 10, [], false⟩), ("b", ⟨"b", 9, [], false⟩)] "b" :=
  ⟨(check_and_consume_frame [("b", ⟨"b", 9, [], false⟩)] 0 "z" false).1
     ErrKind.not_found rfl,
   ((check_and_consume_frame
       [("a", ⟨"a", 10, [], false⟩), ("b", ⟨"b", 9, [], false⟩)] 5 "a"
       false).2 ⟨"a", 10, [], false⟩ ⟨"a", 10, [], true⟩ rfl rfl).2.2 "b"
     (by decide)⟩

/-- Claim C7, evaluated at the failing input: an authorized add request
whose JSON body carries `ttl_seconds = 0` is NOT rejected — the Python
chain `payload.get("ttl_seconds") or request.args.get("ttl_seconds") or
DEFAULT_TTL` treats the falsy `0` as absent, substitutes the default TTL
(900) and creates a record — while the same TTL supplied as the query-arg
string `"0"`, and a body TTL of `999999`, are rejected with `invalid_ttl`
and leave the store untouched. -/
theorem add_ttl_zero_body_not_rejected :
    add_code "secret" 900 [] 0
      { header_key := some "secret", body_code := some "X", args_code := none,
        body_ttl := some 0, args_ttl := none, body_metadata := none }
      = (.added "X" 900,
         [("X", { code := "X", expires_at := 900, metadata := [],
                  used := false })]) ∧
    add_code "secret" 900 [] 0
      { header_key := some "secret", body_code := some "X", args_code := none,
        body_ttl := none, args_ttl := some "0", body_metadata := none }
      = (.invalid_ttl, []) ∧
    add_code "secret" 900 [] 0
      { header_key := some "secret", body_code := some "X", args_code := none,
        body_ttl := some 999999, args_ttl := none, body_metadata := none }
      = (.invalid_ttl, []) := by
  refine ⟨?_, ?_, ?_⟩ <;> rfl

/-- Claim C8: authentication fails closed — with an empty configured secret
`require_api_key` rejects every provided header value (absent, empty or
not), and any `/addcode` or `/purge` request whose provided key does not
match the configured secret (in particular whenever the secret is unset) is
answered `unauthorized` with the store returned unchanged. -/
theorem auth_fails_closed :
    (∀ h : Option String, require_api_key "" h = some ()) ∧
    (∀ (ak : String) (dflt : Int) (s : Store) (now : Int) (req : AddReq),
      ak = "" ∨ req.header_key.getD "" ≠ ak →
      add_code ak dflt s now req = (.unauthorized, s)) ∧
    (∀ (ak : String) (s : Store) (now : Int) (hk : Option String),
      ak = "" ∨ hk.getD "" ≠ ak →
      purge ak s now hk = (.unauthorized, s)) := by
  refine ⟨fun h => by simp [require_api_key], ?_, ?_⟩
  · intro ak dflt s now req h
    rw [add_code, require_api_key]
    rw [if_pos h]
  · intro ak s now hk h
    rw [purge, require_api_key]
    rw [if_pos h]

/-- Witness for C8: an empty secret rejects a guessed header, a wrong key
is rejected by `/addcode`, and an absent key by `/purge`, with no state
change. -/
theorem auth_fails_closed_demo :
    require_api_key "" (some "guess") = some () ∧
    add_code "secret" 900 [("c", ⟨"c", 9, [], false⟩)] 0
      { header_key := some "wrong", body_code := some "X", args_code := none,
        body_ttl := none, args_ttl := none, body_metadata := none }
      = (.unauthorized, [("c", ⟨"c", 9, [], false⟩)]) ∧
    purge "secret" [("c", ⟨"c", 9, [], false⟩)] 0 none
      = (.unauthorized, [("c", ⟨"c", 9, [], false⟩)]) :=
  ⟨auth_fails_closed.1 (some "guess"),
   auth_fails_closed.2.1 "secret" 900 [("c", ⟨"c", 9, [], false⟩)] 0
     { header_key := some "wrong", body_code := some "X", args_code := none,
       body_ttl := none, args_ttl := none, body_metadata := none }
     (Or.inr (by decide)),
   auth_fails_closed.2.2 "secret" [("c", ⟨"c", 9, [], false⟩)] 0 none
     (Or.inr (by decide))⟩

theorem pyStrip_empty : pyStrip "" = "" := rfl

/-- Claim C10: both endpoints strip surrounding whitespace from the code
before use — an authorized add with body code `w` creates the record under
`pyStrip w`, a check with any body code that strips to the stored key `k`
redeems the record under `k`, and a request whose code is empty or
whitespace-only (via body on POST, query on GET, or an authorized add) is
answered `missing_code` with the store untouched. -/
theorem code_trimming (ak : String) (dflt : Int) (ar : Bool) (s : Store)
    (now : Int) :
    (∀ (w : String) (ttl : Int) (m : Option Metadata),
      ak ≠ "" → pyStrip w ≠ "" → 1 ≤ ttl → ttl ≤ 86400 →
      add_code ak dflt s now
        { header_key := some ak, body_code := some w, args_code := none,
          body_ttl := some ttl, args_ttl := none, body_metadata := m }
        = (.added (pyStrip w) (now + ttl),
           setEntry s (pyStrip w)
             { code := pyStrip w, expires_at := now + ttl,
               metadata := m.getD [], used := false })) ∧
    (∀ (w2 k : String) (e : CodeRecord),
      pyStrip w2 = k → k ≠ "" → lookupCode s k = some e → e.used = false →
      ¬ e.expires_at < now →
      check_code ar s now
        { is_post := true, body_code := some w2, args_code := none }
        = (.ok e.code e.metadata, setEntry s k { e with used := true })) ∧
    (∀ w : String, pyStrip w = "" →
      check_code ar s now
          { is_post := true, body_code := some w, args_code := none }
        = (.missing_code, s) ∧
      check_code ar s now
          { is_post := false, body_code := none, args_code := some w }
        = (.missing_code, s) ∧
      (ak ≠ "" →
        ∀ (bt : Option Int) (at2 : Option String) (m : Option Metadata),
        add_code ak dflt s now
          { header_key := some ak, body_code := some w, args_code := none,
            body_ttl := bt, args_ttl := at2, body_metadata := m }
          = (.missing_code, s))) := by
  refine ⟨?_, ?_, ?_⟩
  · intro w ttl m hak hw httl httl2
    have hw0 : w ≠ "" := by
      intro h
      rw [h, pyStrip_empty] at hw
      exact hw rfl
    have hne : ¬ (ak = "" ∨ ak ≠ ak) := by simp [hak]
    have httl0 : ¬ ttl = 0 := by omega
    have hbound : ¬ (ttl ≤ 0 ∨ ttl > 86400) := by omega
    simp [add_code, require_api_key, hne, hak, orElseStr, hw0, hw, pickTtl,
      httl0, hbound, MemoryStore.add]
  · intro w2 k e hw2 hk he hu hx
    have hw20 : w2 ≠ "" := by
      intro h
      rw [h, pyStrip_empty] at hw2
      exact hk hw2.symm
    simp [check_code, orElseStr, hw20, hw2, hk, MemoryStore.check_and_consume,
      he, hx, hu]
  · intro w hw
    refine ⟨?_, ?_, ?_⟩
    · by_cases h0 : w = "" <;>
        simp [check_code, orElseStr, h0, hw, pyStrip_empty]
    · by_cases h0 : w = "" <;>
        simp [check_code, orElseStr, h0, hw, pyStrip_empty]
    · intro hak bt at2 m
      have hne : ¬ (ak = "" ∨ ak ≠ ak) := by simp [hak]
      by_cases h0 : w = "" <;>
        simp [add_code, require_api_key, hne, hak, orElseStr, h0, hw,
          pyStrip_empty]

/-- Witness for C10: `" C "` is added under `"C"`, a check presenting
`" C "` redeems the record stored under `"C"`, and a whitespace-only code
is answered `missing_code`. -/
theorem code_trimming_demo :
    add_code "k" 900 [] 0
      { header_key := some "k", body_code := some " C ", args_code := none,
        body_ttl := some 60, args_ttl := none, body_metadata := none }
      = (.added "C" 60,
         [("C", { code := "C", expires_at := 60, metadata := [],
                  used := false })]) ∧
    check_code false [("C", ⟨"C", 60, [], false⟩)] 0
      { is_post := true, body_code := some " C ", args_code := none }
      = (.ok "C" [], [("C", ⟨"C", 60, [], true⟩)]) ∧
    check_code false [] 0
      { is_post := true, body_code := some "   ", args_code := none }
      = (.missing_code, []) :=
  ⟨(code_trimming "k" 900 false [] 0).1 " C " 60 none (by decide) (by decide)
     (by decide) (by decide),
   (code_trimming "k" 900 false [("C", ⟨"C", 60, [], false⟩)] 0).2.1 " C "
     "C" ⟨"C", 60, [], false⟩ (by decide) (by decide) rfl rfl (by decide),
   ((code_trimming "k" 900 false [] 0).2.2 "   " (by decide)).1⟩
